import Mathlib

/-!
Verification of the spatial estimation engine of a ward air-quality dashboard.
The engine lives in src/components/MapView.jsx: ward/feature matching
(findWardForFeature), centroid computation (getFeatureCentroid), IDW
interpolation of AQI and pollutant channels, the traffic-scenario adjustment,
and the click-time feature resolver that synthesizes a placeholder ward record.
Numbers are embedded as exact rationals (idealized real arithmetic); JS
Math.round is embedded as round-half-toward-positive-infinity.
-/

/-- JS Math.round: rounds to the nearest integer, halves toward positive
infinity: Math.round x = floor (x + 1/2). -/
def jsRound (x : ℚ) : ℤ := ⌊x + 1/2⌋

/-- JS remainder a % b for the nonnegative operands used in the source
(for a ≥ 0, b > 0 the JS truncated remainder coincides with floor-based
remainder). -/
def jsModQ (a b : ℚ) : ℚ := a - b * ⌊a / b⌋

/-- A JS primitive value as it appears in the Ward_No property and the
ward_no field: either a string or an (integer-valued) number. -/
inductive JsPrim where
  | str (s : String)
  | num (n : ℤ)
deriving DecidableEq, Repr

/-- JS String(v) coercion on the primitives modelled here. -/
def JsPrim.toStr : JsPrim → String
  | .str s => s
  | .num n => toString n

/-- JS truthiness of a primitive: the empty string and the number 0 are
falsy, everything else modelled here is truthy. -/
def JsPrim.truthy : JsPrim → Bool
  | .str s => !(s == "")
  | .num n => !(n == 0)

/-- The six pollutant channels interpolated in the click handler
(pollutantKeys = [pm25, pm10, no2, so2, co, o3]). -/
inductive Channel where
  | pm25 | pm10 | no2 | so2 | co | o3
deriving DecidableEq, Repr

/-- A monitoring station sample. The source reads station.lat, station.lon,
station.aqi unconditionally and station[key] for each pollutant key, which
may be null/undefined (modelled as Option). -/
structure Station where
  lat : ℚ
  lon : ℚ
  aqi : ℚ
  pm25 : Option ℚ
  pm10 : Option ℚ
  no2 : Option ℚ
  so2 : Option ℚ
  co : Option ℚ
  o3 : Option ℚ
deriving DecidableEq, Repr

/-- station[key] for a pollutant key. -/
def Station.get (s : Station) : Channel → Option ℚ
  | .pm25 => s.pm25
  | .pm10 => s.pm10
  | .no2 => s.no2
  | .so2 => s.so2
  | .co => s.co
  | .o3 => s.o3

/-- The property bag of a GeoJSON feature, restricted to the two
properties the engine reads: Ward_No and Ward_Name. -/
structure Props where
  ward_No : Option JsPrim
  ward_Name : Option String
deriving DecidableEq, Repr

/-- Feature geometry. A coordinate pair is (lon, lat), the GeoJSON order:
c[0] is longitude, c[1] is latitude. Polygon coordinates are a list of
rings; MultiPolygon coordinates are a list of polygons. -/
inductive Geometry where
  | polygon (coordinates : List (List (ℚ × ℚ)))
  | multiPolygon (coordinates : List (List (List (ℚ × ℚ))))
deriving DecidableEq, Repr

/-- A GeoJSON feature: id, optional property bag, optional geometry. -/
structure Feature where
  id : String
  properties : Option Props
  geometry : Option Geometry
deriving DecidableEq, Repr

/-- An authoritative ward record from the backend, restricted to the
fields the engine reads; it is returned whole and untouched on a match. -/
structure WardRecord where
  id : String
  ward_no : JsPrim
  name : String
  aqi : ℤ
  dominant_source : String
deriving DecidableEq, Repr

/-- A representative point, field lat then lon. -/
structure Centroid where
  lat : ℚ
  lon : ℚ
deriving DecidableEq, Repr

/-- findWardForFeature: if the ward list is empty return null; if the
feature has a property bag with a truthy Ward_No, stringify it and return
the first ward whose stringified ward_no is string-equal; otherwise null.
The source guard is (feature.properties && feature.properties.Ward_No),
so a falsy Ward_No (0 or the empty string) skips matching entirely. -/
def findWardForFeature (feature : Feature) (wards : List WardRecord) : Option WardRecord :=
  if wards.isEmpty then none
  else
    match feature.properties with
    | none => none
    | some props =>
      match props.ward_No with
      | none => none
      | some wn =>
        if wn.truthy then
          wards.find? (fun w => w.ward_no.toStr == wn.toStr)
        else none

/-- The coordinate ring the source selects: coordinates[0][0] for a
MultiPolygon, coordinates[0] otherwise (missing indices give the empty
ring, which the caller rejects). -/
def outerRing : Geometry → List (ℚ × ℚ)
  | .multiPolygon cs => (cs.headD []).headD []
  | .polygon cs => cs.headD []

/-- getFeatureCentroid: null when the geometry is absent or the selected
ring is empty; otherwise the vertex-average of the ring, latitude from
c[1] and longitude from c[0]. -/
def getFeatureCentroid (feature : Feature) : Option Centroid :=
  match feature.geometry with
  | none => none
  | some g =>
    let coords := outerRing g
    if coords.isEmpty then none
    else
      some { lat := (coords.map Prod.snd).sum / coords.length
           , lon := (coords.map Prod.fst).sum / coords.length }

/-- The IDW weight of a station at a query point. The source computes
dist = Math.sqrt of the squared Euclidean distance in (lat, lon) degree
space and then uses dist * dist, which is exactly the squared distance in
exact arithmetic; the weight is 1 / max(distanceSquared, 0.0001). -/
def idwWeight (s : Station) (c : Centroid) : ℚ :=
  1 / max ((s.lat - c.lat) ^ 2 + (s.lon - c.lon) ^ 2) (0.0001 : ℚ)

/-- Accumulated weight over the station list for the AQI channel (every
station contributes; the source has no defined-value guard for AQI). -/
def aqiWeightSum (stations : List Station) (c : Centroid) : ℚ :=
  (stations.map (fun s => idwWeight s c)).sum

/-- Accumulated weight-times-value over the station list for AQI. -/
def aqiValueSum (stations : List Station) (c : Centroid) : ℚ :=
  (stations.map (fun s => idwWeight s c * s.aqi)).sum

/-- The scenario adjustment the source inlines at the tail of
getInterpolatedAqi: with a positive traffic reduction, scale by
(1 - 0.40 * (trafficReduction / 100)) and round; otherwise return the raw
value unchanged. -/
def scenarioAdjust (rawValue : ℤ) (trafficReduction : ℚ) : ℤ :=
  if 0 < trafficReduction then
    jsRound ((rawValue : ℚ) * (1 - 0.40 * (trafficReduction / 100)))
  else rawValue

/-- getInterpolatedAqi: 180 when the station list is empty or the centroid
is unavailable (both early returns skip the scenario adjustment);
otherwise the rounded weighted AQI mean, scenario-adjusted. -/
def getInterpolatedAqi (stations : List Station) (trafficReduction : ℚ)
    (feature : Feature) : ℤ :=
  if stations.isEmpty then 180
  else
    match getFeatureCentroid feature with
    | none => 180
    | some centroid =>
      let weightSum := aqiWeightSum stations centroid
      let valueSum := aqiValueSum stations centroid
      let rawAqi : ℤ := if 0 < weightSum then jsRound (valueSum / weightSum) else 180
      scenarioAdjust rawAqi trafficReduction

/-- The per-station guard in the pollutant loop: the reading exists
(not null/undefined) and is strictly positive. -/
def pollutantReports (s : Station) (key : Channel) : Bool :=
  match s.get key with
  | some v => decide (0 < v)
  | none => false

/-- Accumulated weight over the stations passing the pollutant guard. -/
def pollWeightSum (stations : List Station) (c : Centroid) (key : Channel) : ℚ :=
  ((stations.filter (fun s => pollutantReports s key)).map (fun s => idwWeight s c)).sum

/-- Accumulated weight-times-value over the stations passing the guard. -/
def pollValueSum (stations : List Station) (c : Centroid) (key : Channel) : ℚ :=
  ((stations.filter (fun s => pollutantReports s key)).map
    (fun s => idwWeight s c * (s.get key).getD 0)).sum

/-- The pollutant interpolation of the click handler: null when no station
passes the guard, otherwise the weighted mean rounded to two decimal
places (Math.round (mean * 100) / 100). -/
def interpolatePollutant (stations : List Station) (c : Centroid) (key : Channel) : Option ℚ :=
  let weightSum := pollWeightSum stations c key
  let valueSum := pollValueSum stations c key
  if 0 < weightSum then
    some ((jsRound (valueSum / weightSum * 100) : ℚ) / 100)
  else none

/-- Sum of the UTF-16 code units of a string (String.split + charCodeAt
reduce in the source); for the ASCII ward numbers used this is the sum of
the character codes. -/
def charCodeSum (s : String) : ℕ := (s.data.map Char.toNat).sum

/-- The display name chosen in the estimated branch:
feature.properties?.Ward_Name || 'Unknown Ward' (an empty Ward_Name is
falsy and also falls through). -/
def featureDisplayName (f : Feature) : String :=
  match f.properties with
  | some p =>
    match p.ward_Name with
    | some s => if s == "" then "Unknown Ward" else s
    | none => "Unknown Ward"
  | none => "Unknown Ward"

/-- The ward_no stored on the synthesized record:
feature.properties?.Ward_No || 'N/A'. -/
def wardNoOrNA (f : Feature) : JsPrim :=
  match f.properties.bind Props.ward_No with
  | some wn => if wn.truthy then wn else .str "N/A"
  | none => .str "N/A"

/-- The string hashed for population/area:
(feature.properties?.Ward_No || '0').toString(). -/
def wardNoHashStr (f : Feature) : String :=
  match f.properties.bind Props.ward_No with
  | some wn => if wn.truthy then wn.toStr else "0"
  | none => "0"

/-- The fixed generic pollution-source breakdown of a synthesized record. -/
structure Breakdown where
  traffic : ℕ
  industrial : ℕ
  construction_dust : ℕ
  biomass_burning : ℕ
  other : ℕ
deriving DecidableEq, Repr

/-- The six interpolated pollutant readings, each possibly absent. -/
structure Pollutants where
  pm25 : Option ℚ
  pm10 : Option ℚ
  no2 : Option ℚ
  so2 : Option ℚ
  co : Option ℚ
  o3 : Option ℚ
deriving DecidableEq, Repr

/-- The temporary ward-like object the click handler builds for an
unmatched feature. -/
structure SynthWard where
  id : String
  name : String
  ward_no : JsPrim
  aqi : ℤ
  dominant_source : String
  pollution_breakdown : Breakdown
  pollutants : Pollutants
  recommendations : List String
  coordinates : Centroid
  population : ℕ
  area_sqkm : ℚ
  trend : String
  last_updated : ℕ
deriving DecidableEq, Repr

/-- The entity the click handler hands to onWardClick: the matched
authoritative record untouched, or the synthesized placeholder. -/
inductive Resolved where
  | authoritative (ward : WardRecord)
  | estimated (synth : SynthWard)
deriving DecidableEq, Repr

/-- The click-handler resolution pipeline of onEachFeature: match by
Ward_No; on a match hand over the ward record untouched; otherwise build
the temporary ward object with centroid fallback (28.7041, 77.1025),
per-channel pollutant interpolation, hash-derived population and area,
fixed breakdown, recommendations and trend, and the generation time. -/
def resolveFeature (f : Feature) (wards : List WardRecord) (stations : List Station)
    (trafficReduction : ℚ) (now : ℕ) : Resolved :=
  match findWardForFeature f wards with
  | some ward => .authoritative ward
  | none =>
    let centroid := (getFeatureCentroid f).getD { lat := 28.7041, lon := 77.1025 }
    let h := charCodeSum (wardNoHashStr f)
    .estimated
      { id := f.id
      , name := featureDisplayName f
      , ward_no := wardNoOrNA f
      , aqi := getInterpolatedAqi stations trafficReduction f
      , dominant_source := "Estimated"
      , pollution_breakdown :=
          { traffic := 30, industrial := 20, construction_dust := 20
          , biomass_burning := 15, other := 15 }
      , pollutants :=
          { pm25 := interpolatePollutant stations centroid .pm25
          , pm10 := interpolatePollutant stations centroid .pm10
          , no2 := interpolatePollutant stations centroid .no2
          , so2 := interpolatePollutant stations centroid .so2
          , co := interpolatePollutant stations centroid .co
          , o3 := interpolatePollutant stations centroid .o3 }
      , recommendations :=
          [ "AQI data estimated from nearby stations"
          , "Wear N95 mask when outdoors"
          , "Limit outdoor activities during peak hours"
          , "Keep windows closed"
          , "Use air purifiers indoors" ]
      , coordinates := centroid
      , population := 80000 + (h * 1234) % 400000
      , area_sqkm := (jsRound ((2.5 + jsModQ ((h : ℚ) * 0.17) 12) * 10) : ℚ) / 10
      , trend := "Stable"
      , last_updated := now }

/-- A resolved entity with the generation timestamp zeroed out, for
stating timestamp-insensitivity. -/
def eraseTime : Resolved → Resolved
  | .authoritative w => .authoritative w
  | .estimated r => .estimated { r with last_updated := 0 }

/-- Modelled from the claim wording (spec section 4.1): stringify the
Ward_No property whenever it is present (with no truthiness guard) and
return the first ward whose stringified ward_no is string-equal, else
None. Used to compare the claimed matcher with findWardForFeature. -/
def wardMatcherClaimed (f : Feature) (wards : List WardRecord) : Option WardRecord :=
  match f.properties.bind Props.ward_No with
  | some wn => wards.find? (fun w => w.ward_no.toStr == wn.toStr)
  | none => none

/-- The raw IDW AQI estimate at a point: the rounded weighted mean when
the accumulated weight is positive, else the 180 fallback. -/
def idwAqiRaw (stations : List Station) (c : Centroid) : ℤ :=
  if 0 < aqiWeightSum stations c then
    jsRound (aqiValueSum stations c / aqiWeightSum stations c)
  else 180

/-- Modelled from the claim wording (spec section 4.5 steps 2-3): always
interpolate at the centroid or at the fixed fallback point and always
apply the scenario adjustment, even to the 180 fallback. Used to compare
the claimed AQI pipeline with getInterpolatedAqi. -/
def claimedResolvedAqi (stations : List Station) (trafficReduction : ℚ)
    (f : Feature) : ℤ :=
  let c := (getFeatureCentroid f).getD { lat := 28.7041, lon := 77.1025 }
  scenarioAdjust (idwAqiRaw stations c) trafficReduction

/-- Modelled from the claim wording (spec section 4.3): every station
with a defined value for the channel contributes, with the same weights
and the same rounding as the source. Used to compare the claimed
contribution rule with interpolatePollutant. -/
def interpolatePollutantClaimed (stations : List Station) (c : Centroid)
    (key : Channel) : Option ℚ :=
  let reporting := stations.filter (fun s => (s.get key).isSome)
  let weightSum := (reporting.map (fun s => idwWeight s c)).sum
  let valueSum := (reporting.map (fun s => idwWeight s c * (s.get key).getD 0)).sum
  if 0 < weightSum then
    some ((jsRound (valueSum / weightSum * 100) : ℚ) / 100)
  else none

/-- The ring of the square example from the specification, in (lon, lat)
order. -/
def squareGeom : Geometry := .polygon [[(0,0),(0,2),(2,2),(2,0)]]

/-- A feature carrying the square example ring. -/
def squareFeature : Feature :=
  { id := "square", properties := none, geometry := some squareGeom }

/-- A ward whose ward_no is the string "0". -/
def wardZero : WardRecord :=
  { id := "w0", ward_no := .str "0", name := "Ward Zero", aqi := 100
  , dominant_source := "Vehicular" }

/-- A feature whose Ward_No property is the number 0 (falsy in JS). -/
def featureZero : Feature :=
  { id := "f0", properties := some { ward_No := some (.num 0), ward_Name := none }
  , geometry := none }

/-- The ward of the end-to-end matched scenario of the specification. -/
def wardSeven : WardRecord :=
  { id := "w7", ward_no := .str "7", name := "Ward Seven", aqi := 210
  , dominant_source := "Traffic" }

/-- The feature of the end-to-end matched scenario of the specification. -/
def featureSeven : Feature :=
  { id := "feature-3", properties := some { ward_No := some (.str "7"), ward_Name := none }
  , geometry := none }

/-- A feature with a property bag but no Ward_No property. -/
def featureBare : Feature :=
  { id := "feature-9", properties := some { ward_No := none, ward_Name := none }
  , geometry := none }

/-- The origin as a query point. -/
def originPoint : Centroid := { lat := 0, lon := 0 }

/-- A station at the origin with a defined PM2.5 reading of exactly 0. -/
def stZeroPm : Station :=
  { lat := 0, lon := 0, aqi := 100, pm25 := some 0, pm10 := none, no2 := none
  , so2 := none, co := none, o3 := none }

/-- A station at the origin with PM2.5 reading 9/4 = 2.25. -/
def stQuarter : Station :=
  { lat := 0, lon := 0, aqi := 100, pm25 := some (9/4), pm10 := none, no2 := none
  , so2 := none, co := none, o3 := none }

/-- A station reporting no pollutant channel at all. -/
def stNoPoll : Station :=
  { lat := 28.71, lon := 77.11, aqi := 300, pm25 := none, pm10 := none, no2 := none
  , so2 := none, co := none, o3 := none }

lemma squareCentroid : getFeatureCentroid squareFeature = some { lat := 1, lon := 1 } := by
  have h : getFeatureCentroid squareFeature =
      some { lat := (0 + 2 + 2 + 0) / 4, lon := (0 + 0 + 2 + 2) / 4 } := by
    simp [getFeatureCentroid, squareFeature, squareGeom, outerRing]
  rw [h]
  norm_num

lemma idwWeight_origin_station (s : Station) (hlat : s.lat = 0) (hlon : s.lon = 0) :
    idwWeight s originPoint = 10000 := by
  rw [idwWeight, hlat, hlon]
  rw [show ((0 : ℚ) - originPoint.lat) ^ 2 + ((0 : ℚ) - originPoint.lon) ^ 2 = 0 by
    norm_num [originPoint]]
  rw [max_eq_right (by norm_num)]
  norm_num

lemma idwWeight_pos (s : Station) (c : Centroid) : 0 < idwWeight s c := by
  have h : (0 : ℚ) < max ((s.lat - c.lat) ^ 2 + (s.lon - c.lon) ^ 2) (0.0001 : ℚ) :=
    lt_max_of_lt_right (by norm_num)
  exact div_pos one_pos h

lemma aqiWeightSum_pos (stations : List Station) (c : Centroid) (h : stations ≠ []) :
    0 < aqiWeightSum stations c := by
  unfold aqiWeightSum
  apply List.sum_pos
  · intro x hx
    obtain ⟨s, _, rfl⟩ := List.mem_map.mp hx
    exact idwWeight_pos s c
  · simpa using h

lemma pollWeightSum_pos (stations : List Station) (c : Centroid) (key : Channel)
    (h : stations.filter (fun s => pollutantReports s key) ≠ []) :
    0 < pollWeightSum stations c key := by
  unfold pollWeightSum
  apply List.sum_pos
  · intro x hx
    obtain ⟨s, _, rfl⟩ := List.mem_map.mp hx
    exact idwWeight_pos s c
  · simpa using h

/-- Claim C4: the scenario adjustment returns the raw value unchanged for
a nonpositive traffic-reduction percentage, and otherwise rounds
rawValue * (1 - 0.40 * (percent / 100)); in particular 100 stays 100 at
percent 0, becomes 60 at percent 100 and 80 at percent 50. -/
theorem scenarioAdjust_policy (v : ℤ) (p : ℚ) :
    (p ≤ 0 → scenarioAdjust v p = v) ∧
    (0 < p → scenarioAdjust v p = jsRound ((v : ℚ) * (1 - 0.40 * (p / 100)))) ∧
    scenarioAdjust 100 0 = 100 ∧ scenarioAdjust 100 100 = 60 ∧
    scenarioAdjust 100 50 = 80 := by
  refine ⟨?_, ?_, ?_, ?_, ?_⟩
  · intro h; simp [scenarioAdjust, not_lt.mpr h]
  · intro h; simp [scenarioAdjust, h]
  · norm_num [scenarioAdjust]
  · norm_num [scenarioAdjust, jsRound]
  · norm_num [scenarioAdjust, jsRound]

theorem scenarioAdjust_policy_witness :
    scenarioAdjust 7 (-5) = 7 ∧
    scenarioAdjust 50 10 = jsRound ((50 : ℚ) * (1 - 0.40 * (10 / 100))) :=
  ⟨(scenarioAdjust_policy 7 (-5)).1 (by norm_num),
   (scenarioAdjust_policy 50 10).2.1 (by norm_num)⟩

/-- Claim C6: with zero stations the AQI interpolation returns the 180
fallback for every feature and scenario parameter, and a pollutant
channel that no station reports (every reading absent) interpolates to
the explicit absent value, never 0, for every query point. -/
theorem interpolation_fallbacks (f : Feature) (tr : ℚ) (stations : List Station)
    (c : Centroid) (key : Channel)
    (h : ∀ s ∈ stations, s.get key = none) :
    getInterpolatedAqi [] tr f = 180 ∧ interpolatePollutant stations c key = none := by
  constructor
  · rfl
  · have hfil : stations.filter (fun s => pollutantReports s key) = [] := by
      rw [List.filter_eq_nil_iff]
      intro s hs
      simp [pollutantReports, h s hs]
    simp [interpolatePollutant, pollWeightSum, hfil]

theorem interpolation_fallbacks_witness :
    getInterpolatedAqi [] 25 squareFeature = 180 ∧
    interpolatePollutant [stNoPoll] originPoint .pm25 = none :=
  interpolation_fallbacks squareFeature 25 [stNoPoll] originPoint .pm25
    (by intro s hs; simp only [List.mem_singleton] at hs; subst hs; rfl)

/-- Claim C7: the centroid is absent exactly when the geometry is absent
or the selected outer ring (first ring of the first part for multi-part
geometries) is empty; otherwise it is the vertex average, latitude from
the second coordinate and longitude from the first; on the square ring
[[0,0],[0,2],[2,2],[2,0]] it is lat 1, lon 1. -/
theorem getFeatureCentroid_spec (f : Feature) :
    (getFeatureCentroid f = none ↔
      f.geometry = none ∨ ∃ g, f.geometry = some g ∧ outerRing g = []) ∧
    (∀ g, f.geometry = some g → outerRing g ≠ [] →
      getFeatureCentroid f =
        some { lat := ((outerRing g).map Prod.snd).sum / (outerRing g).length
             , lon := ((outerRing g).map Prod.fst).sum / (outerRing g).length }) ∧
    getFeatureCentroid squareFeature = some { lat := 1, lon := 1 } := by
  refine ⟨?_, ?_, ?_⟩
  · cases hg : f.geometry with
    | none => simp [getFeatureCentroid, hg]
    | some g =>
      by_cases he : (outerRing g).isEmpty <;>
        simp_all [getFeatureCentroid, hg, List.isEmpty_iff]
  · intro g hg hr
    simp [getFeatureCentroid, hg, List.isEmpty_iff, hr]
  · exact squareCentroid

theorem getFeatureCentroid_spec_witness :
    getFeatureCentroid squareFeature =
      some { lat := ((outerRing squareGeom).map Prod.snd).sum / (outerRing squareGeom).length
           , lon := ((outerRing squareGeom).map Prod.fst).sum / (outerRing squareGeom).length } :=
  (getFeatureCentroid_spec squareFeature).2.1 squareGeom rfl (by simp [outerRing, squareGeom])

/-- Claim C1 as stated fails: the feature whose Ward_No property is the
number 0 string-matches the ward whose ward_no is the string "0" under
the claimed stringified comparison, yet the matcher returns none, because
the source guards on JS truthiness of Ward_No and 0 is falsy. -/
theorem wardMatcher_truthy_cex :
    wardMatcherClaimed featureZero [wardZero] = some wardZero ∧
    findWardForFeature featureZero [wardZero] = none := by
  constructor <;> rfl

/-- Claim C1 amended: whenever the Ward_No property, if present, is
JS-truthy (not 0 and not the empty string), the matcher returns exactly
the first ward whose stringified ward_no equals the stringified Ward_No,
and none when Ward_No is absent or nothing is string-equal; a falsy
Ward_No is treated as absent. -/
theorem wardMatcher_truthy (f : Feature) (wards : List WardRecord)
    (h : Option.all JsPrim.truthy (f.properties.bind Props.ward_No) = true) :
    findWardForFeature f wards = wardMatcherClaimed f wards := by
  cases hp : f.properties with
  | none => cases wards <;> simp [findWardForFeature, wardMatcherClaimed, hp]
  | some p =>
    cases hw : p.ward_No with
    | none => cases wards <;> simp [findWardForFeature, wardMatcherClaimed, hp, hw]
    | some wn =>
      rw [hp] at h
      simp [hw] at h
      cases wards with
      | nil => simp [findWardForFeature, wardMatcherClaimed, hp, hw, h]
      | cons a l => simp [findWardForFeature, wardMatcherClaimed, hp, hw, h]

theorem wardMatcher_truthy_witness :
    findWardForFeature featureSeven [wardSeven] =
      wardMatcherClaimed featureSeven [wardSeven] :=
  wardMatcher_truthy featureSeven [wardSeven] (by rfl)

/-- Claim C2 as stated fails: with the empty station set and traffic
reduction 50 the claimed pipeline adjusts the 180 fallback to 144, but
the source returns 180 unadjusted (the empty-station early return skips
the scenario adjustment). -/
theorem resolvedAqi_adjustment_cex :
    getInterpolatedAqi [] 50 featureZero ≠ claimedResolvedAqi [] 50 featureZero ∧
    getInterpolatedAqi [] 50 featureZero = 180 ∧
    claimedResolvedAqi [] 50 featureZero = 144 := by
  refine ⟨?_, rfl, ?_⟩
  · have h : claimedResolvedAqi [] 50 featureZero = 144 := by
      norm_num [claimedResolvedAqi, idwAqiRaw, aqiWeightSum, getFeatureCentroid,
        featureZero, scenarioAdjust, jsRound]
    rw [h]
    norm_num [getInterpolatedAqi]
  · norm_num [claimedResolvedAqi, idwAqiRaw, aqiWeightSum, getFeatureCentroid,
      featureZero, scenarioAdjust, jsRound]

/-- Claim C2 amended: for a nonempty station set and an available
centroid, the resolved AQI of an unmatched feature is the scenario
adjustment of the IDW estimate at the centroid; when the station set is
empty or the centroid is unavailable the source returns 180 with no
scenario adjustment and without interpolating at the fixed fallback
point. -/
theorem resolvedAqi_adjustment (stations : List Station) (tr : ℚ) (f : Feature) :
    (stations ≠ [] → (getFeatureCentroid f).isSome →
      getInterpolatedAqi stations tr f = claimedResolvedAqi stations tr f) ∧
    (stations = [] ∨ getFeatureCentroid f = none →
      getInterpolatedAqi stations tr f = 180) := by
  constructor
  · intro hs hc
    obtain ⟨c, hc⟩ := Option.isSome_iff_exists.mp hc
    have hw : 0 < aqiWeightSum stations c := aqiWeightSum_pos stations c hs
    simp [getInterpolatedAqi, claimedResolvedAqi, idwAqiRaw, hc, hs, hw,
      List.isEmpty_iff]
  · rintro (rfl | hc)
    · rfl
    · by_cases he : stations.isEmpty <;> simp [getInterpolatedAqi, hc, he]

theorem resolvedAqi_adjustment_witness :
    getInterpolatedAqi [stNoPoll] 50 squareFeature =
      claimedResolvedAqi [stNoPoll] 50 squareFeature ∧
    getInterpolatedAqi [] 50 squareFeature = 180 :=
  ⟨(resolvedAqi_adjustment [stNoPoll] 50 squareFeature).1 (by simp) (by rfl),
   (resolvedAqi_adjustment [] 50 squareFeature).2 (Or.inl rfl)⟩

/-- Claim C3 as stated fails: a station with a defined PM2.5 reading of
exactly 0 contributes under the claimed defined-value rule (giving the
estimate 0), but the source filters on value > 0 and so returns the
absent value. -/
theorem pollutantContribution_cex :
    interpolatePollutantClaimed [stZeroPm] originPoint .pm25 = some 0 ∧
    interpolatePollutant [stZeroPm] originPoint .pm25 = none := by
  constructor
  · have hget : stZeroPm.get .pm25 = some 0 := rfl
    have hw : idwWeight stZeroPm originPoint = 10000 :=
      idwWeight_origin_station stZeroPm rfl rfl
    simp [interpolatePollutantClaimed, hget, hw]
    norm_num [jsRound]
  · have hget : stZeroPm.get .pm25 = some 0 := rfl
    simp [interpolatePollutant, pollWeightSum, pollutantReports, hget]

/-- Claim C3 amended: for a pollutant channel, exactly the stations whose
reading for that channel is defined and strictly positive contribute
(a defined reading of 0, like an absent one, contributes nothing), each
with weight 1 / max(squared degree-space distance, 1e-4); the result is
the absent value exactly when no station qualifies. -/
theorem pollutantContribution (stations : List Station) (c : Centroid) (key : Channel) :
    interpolatePollutant stations c key =
      (if (stations.filter fun s => decide (0 < (s.get key).getD 0)) = [] then none
       else
        some ((jsRound
          ((((stations.filter fun s => decide (0 < (s.get key).getD 0)).map
              (fun s => (1 / max ((s.lat - c.lat) ^ 2 + (s.lon - c.lon) ^ 2) (0.0001 : ℚ)) *
                (s.get key).getD 0)).sum /
            ((stations.filter fun s => decide (0 < (s.get key).getD 0)).map
              (fun s => 1 / max ((s.lat - c.lat) ^ 2 + (s.lon - c.lon) ^ 2) (0.0001 : ℚ))).sum) *
           100) : ℚ) / 100)) := by
  have hfil : (stations.filter fun s => pollutantReports s key) =
      (stations.filter fun s => decide (0 < (s.get key).getD 0)) := by
    apply List.filter_congr
    intro s _
    cases h : s.get key <;> simp [pollutantReports, h]
  by_cases hnil : (stations.filter fun s => decide (0 < (s.get key).getD 0)) = []
  · have hz : pollWeightSum stations c key = 0 := by
      simp [pollWeightSum, hfil, hnil]
    simp [interpolatePollutant, hz, hnil]
  · have hpos : 0 < pollWeightSum stations c key :=
      pollWeightSum_pos stations c key (by rw [hfil]; exact hnil)
    simp only [interpolatePollutant, hpos, if_pos, if_neg hnil]
    rw [pollValueSum, pollWeightSum, hfil]
    simp [idwWeight]

/-- Claim C5 as stated fails: a station at the query point with PM2.5
reading 9/4 gives the interpolated value 9/4 = 2.25 (rounded to two
decimal places), which is not the integer rounding of the weighted mean
(that would be 2). -/
theorem interpolation_rounding_cex :
    interpolatePollutant [stQuarter] originPoint .pm25 = some (9/4) ∧
    ((9/4 : ℚ) ≠ ((jsRound (9/4 : ℚ) : ℤ) : ℚ)) := by
  constructor
  · have hget : stQuarter.get .pm25 = some (9/4) := rfl
    have hw : idwWeight stQuarter originPoint = 10000 :=
      idwWeight_origin_station stQuarter rfl rfl
    simp [interpolatePollutant, pollWeightSum, pollValueSum, pollutantReports, hget, hw]
    norm_num [jsRound]
  · norm_num [jsRound]

/-- Claim C5 amended: when at least one station contributes, the AQI
channel result (with the scenario parameter 0) is the weighted mean
rounded to the nearest integer, while each pollutant channel result is
the weighted mean rounded to two decimal places, not to an integer. -/
theorem interpolation_rounding (stations : List Station) (c : Centroid) (f : Feature)
    (key : Channel) (hs : stations ≠ [])
    (hc : getFeatureCentroid f = some c)
    (hr : stations.filter (fun s => pollutantReports s key) ≠ []) :
    getInterpolatedAqi stations 0 f =
      jsRound (aqiValueSum stations c / aqiWeightSum stations c) ∧
    interpolatePollutant stations c key =
      some ((jsRound (pollValueSum stations c key / pollWeightSum stations c key * 100) : ℚ)
        / 100) := by
  have hw : 0 < aqiWeightSum stations c := aqiWeightSum_pos stations c hs
  have hp : 0 < pollWeightSum stations c key := pollWeightSum_pos stations c key hr
  constructor
  · simp [getInterpolatedAqi, hc, hs, hw, List.isEmpty_iff, scenarioAdjust]
  · simp [interpolatePollutant, hp]

theorem interpolation_rounding_witness :
    getInterpolatedAqi [stQuarter] 0 squareFeature =
      jsRound (aqiValueSum [stQuarter] { lat := 1, lon := 1 } /
               aqiWeightSum [stQuarter] { lat := 1, lon := 1 }) ∧
    interpolatePollutant [stQuarter] { lat := 1, lon := 1 } .pm25 =
      some ((jsRound (pollValueSum [stQuarter] { lat := 1, lon := 1 } .pm25 /
              pollWeightSum [stQuarter] { lat := 1, lon := 1 } .pm25 * 100) : ℚ) / 100) :=
  interpolation_rounding [stQuarter] { lat := 1, lon := 1 } squareFeature .pm25
    (by simp)
    squareCentroid
    (by simp [pollutantReports, Station.get, stQuarter])

/-- Claim C8: when a feature matches a ward, the resolver hands back the
matched authoritative record itself — no field is modified, no scenario
re-adjustment happens at this layer for any traffic-reduction parameter
or station set — tagged with the authoritative (not estimated)
constructor. -/
theorem resolver_authoritative (f : Feature) (wards : List WardRecord)
    (stations : List Station) (tr : ℚ) (now : ℕ) (w : WardRecord)
    (h : findWardForFeature f wards = some w) :
    resolveFeature f wards stations tr now = .authoritative w := by
  simp [resolveFeature, h]

theorem resolver_authoritative_witness :
    resolveFeature featureSeven [wardSeven] [] 30 5 = .authoritative wardSeven :=
  resolver_authoritative featureSeven [wardSeven] [] 30 5 wardSeven rfl

/-- Claim C9: resolution is deterministic — resolving the same feature
with the same ward set, station set and scenario parameter at two
different generation times yields results identical in every field
except the generation timestamp. -/
theorem resolver_deterministic (f : Feature) (wards : List WardRecord)
    (stations : List Station) (tr : ℚ) (t1 t2 : ℕ) :
    eraseTime (resolveFeature f wards stations tr t1) =
      eraseTime (resolveFeature f wards stations tr t2) := by
  cases h : findWardForFeature f wards <;> simp [resolveFeature, h, eraseTime]

/-- Claim C10: an unmatched feature whose properties lack a Ward_No gets
the display ward number "N/A", while population and area are derived from
the hash of the fallback string "0" (character-code sum 48), giving the
same placeholder values for every such feature: population 139232 and
area 10.7. -/
theorem resolver_placeholder (f : Feature) (wards : List WardRecord)
    (stations : List Station) (tr : ℚ) (now : ℕ)
    (h : f.properties.bind Props.ward_No = none) :
    ∃ r, resolveFeature f wards stations tr now = .estimated r ∧
      r.ward_no = JsPrim.str "N/A" ∧ r.population = 139232 ∧
      r.area_sqkm = 107/10 := by
  have hfind : findWardForFeature f wards = none := by
    cases hp : f.properties with
    | none => cases wards <;> simp [findWardForFeature, hp]
    | some p =>
      have hw : p.ward_No = none := by rw [hp] at h; simpa using h
      cases wards <;> simp [findWardForFeature, hp, hw]
  have hhash : wardNoHashStr f = "0" := by simp [wardNoHashStr, h]
  have hna : wardNoOrNA f = .str "N/A" := by simp [wardNoOrNA, h]
  have hsum : charCodeSum (wardNoHashStr f) = 48 := by rw [hhash]; rfl
  simp only [resolveFeature, hfind]
  refine ⟨_, rfl, hna, ?_, ?_⟩
  · rw [hsum]
  · rw [hsum]
    norm_num [jsModQ, jsRound]

theorem resolver_placeholder_witness :
    ∃ r, resolveFeature featureBare [] [] 0 7 = .estimated r ∧
      r.ward_no = JsPrim.str "N/A" ∧ r.population = 139232 ∧
      r.area_sqkm = 107/10 :=
  resolver_placeholder featureBare [] [] 0 7 rfl
